import Mathlib

/-!
Shallow embedding of the `win32-remove-dir-all` crate (Windows recursive
directory deletion via `SHFileOperationW` and `IFileOperation`).

Platform calls (`GetFullPathNameW`, `GetFileAttributesW`, `SHFileOperationW`,
the COM calls made by the modern engine, and the probe's symbol lookup) are
modelled by explicit environments supplying their outcomes; the crate's own
control flow, error construction and translation tables are translated
directly from the source files `src/windows/mod.rs`, `src/windows/shell.rs`
and `src/windows/property.rs`.  Each engine additionally emits a trace of
observable platform events (resolution calls, the batch call, COM handle
acquisition/release, probe discovery) used to state the temporal claims.
-/

namespace RemoveDirAll

/-- Kinds of `std::io::Error` used by this crate (subset of `io::ErrorKind`). -/
inductive IoErrorKind where
  | notFound
  | permissionDenied
  | alreadyExists
  | invalidInput
  | invalidData
  | interrupted
  | other
  deriving DecidableEq, Repr

/-- Modelled from the Rust standard library's Windows `decode_error_kind`
(the kind assigned by `io::Error::from_raw_os_error` / `last_os_error`):
`ERROR_FILE_NOT_FOUND` (2) and `ERROR_PATH_NOT_FOUND` (3) map to `NotFound`,
`ERROR_ACCESS_DENIED` (5) to `PermissionDenied`, `ERROR_ALREADY_EXISTS` (183)
to `AlreadyExists`, anything else to `Other`. -/
def decodeErrorKind (code : Int) : IoErrorKind :=
  if code = 2 then .notFound
  else if code = 3 then .notFound
  else if code = 5 then .permissionDenied
  else if code = 183 then .alreadyExists
  else .other

/-- A `std::io::Error`: either built from a raw OS error code
(`io::Error::from_raw_os_error` / `io::Error::last_os_error`) or a custom
error with an explicit kind and message (`io::Error::new`). -/
inductive IoError where
  | osError (code : Int)
  | custom (kind : IoErrorKind) (msg : String)
  deriving DecidableEq, Repr

/-- The `kind()` of an `io::Error`. -/
def IoError.kind : IoError → IoErrorKind
  | .osError c => decodeErrorKind c
  | .custom k _ => k

/-- Decidable equality for `Except`, needed to evaluate the embedded
functions on concrete inputs. -/
instance {ε α : Type} [DecidableEq ε] [DecidableEq α] : DecidableEq (Except ε α) := fun a b =>
  match a, b with
  | .error e, .error f =>
    if h : e = f then .isTrue (h ▸ rfl) else .isFalse fun hc => h (Except.error.inj hc)
  | .ok x, .ok y =>
    if h : x = y then .isTrue (h ▸ rfl) else .isFalse fun hc => h (Except.ok.inj hc)
  | .error _, .ok _ => .isFalse fun hc => Except.noConfusion hc
  | .ok _, .error _ => .isFalse fun hc => Except.noConfusion hc

/-! ### HRESULT translation (`property.rs`, `hresult_to_result`) -/

/-- Reinterpret an `i32` value as a `u32` (`result as u32` in the source). -/
def toU32 (r : Int) : Nat := (r % (2 : Int) ^ 32).toNat

/-- The error produced by `hresult_to_result` for a negative `HRESULT`,
translated from `property.rs` lines 306-321: HRESULTs whose upper 16 bits
are `0x8007` carry a Win32 error code in the lower 16 bits; any other
failure HRESULT becomes an `Other`-kind error with a message built from the
failing step's name (`context`) and the raw status value. -/
def hresultError (result : Int) (context : String) : IoError :=
  if toU32 result &&& 0xffff0000 = 0x80070000 then
    .osError (Int.ofNat (toU32 result &&& 0xffff))
  else
    .custom .other (context ++ " failed with HRESULT " ++ toString result ++ ".")

/-- `hresult_to_result` from `property.rs`: a non-negative `HRESULT` is
success (returned unchanged); a negative one is translated by
`hresultError`. -/
def hresult_to_result (result : Int) (context : String) : Except IoError Int :=
  if 0 ≤ result then .ok result
  else .error (hresultError result context)

/-! ### Path resolution (`mod.rs`) -/

/-- The `\\?\` extended-length path marker as UTF-16 code units
(`EXTENDED_PATH_PREFIX` in `mod.rs`). -/
def EXTENDED_PATH_MARKER : List Nat := [92, 92, 63, 92]

/-- The string handed to `GetFullPathNameW` (`mod.rs` lines 34-49): the
input encoded as UTF-16, with a leading `\\?\` marker added when its first
four code units are not already that marker, and a trailing nul. -/
def encode_nul_terminated (input : List Nat) : List Nat :=
  if input.take 4 = EXTENDED_PATH_MARKER then input ++ [0]
  else EXTENDED_PATH_MARKER ++ input ++ [0]

/-- Environment modelling `GetFullPathNameW`: for the encoded input string
and the index of the call within the retry loop, `ret` gives the returned
length value (0 on failure, the required size when the buffer is too small,
the written length when the result fits) and `out` gives the buffer contents
(without the trailing nul) written when the result fits.  `lastOsError` is
the thread's last OS error code, read on failure. -/
structure ResolveEnv where
  ret : List Nat → Nat → Nat
  out : List Nat → Nat → List Nat
  lastOsError : Int

/-- The retry loop of `resolve_absolute_path_utf16` (`mod.rs` lines 54-80),
with explicit fuel (`none` = the loop did not finish within `fuel`
iterations).  A zero return is a failure reported via the last OS error; a
return smaller than the current capacity means the result fit and the
buffer (now nul-terminated) is the resolved path; otherwise the buffer is
grown to exactly the returned size and the call retried. -/
def resolveLoop (env : ResolveEnv) (p : List Nat) : Nat → Nat → Nat →
    Option (Except IoError (List Nat))
  | _, _, 0 => none
  | i, capacity, fuel + 1 =>
    let result := env.ret p i
    if result = 0 then some (.error (.osError env.lastOsError))
    else if result < capacity then some (.ok (env.out p i ++ [0]))
    else resolveLoop env p (i + 1) result fuel

/-- `resolve_absolute_path_utf16` from `mod.rs`: encode the input (adding
the extended-length marker and the nul terminator), then run the
`GetFullPathNameW` loop starting from a zero-capacity call. -/
def resolve_absolute_path_utf16 (env : ResolveEnv) (input : List Nat) (fuel : Nat) :
    Option (Except IoError (List Nat)) :=
  resolveLoop env (encode_nul_terminated input) 0 0 fuel

/-- `strip_extended_length_path_prefix` from `mod.rs` lines 87-93: drop the
first four code units exactly when the path has at least four code units
and they equal the `\\?\` marker. -/
def strip_extended_marker (path : List Nat) : List Nat :=
  if 4 ≤ path.length ∧ path.take 4 = EXTENDED_PATH_MARKER then path.drop 4
  else path

/-! ### Legacy engine error-code table (`shell.rs`, `ErrorCode`) -/

/-- Non-standard `SHFileOperation` error codes (`shell.rs` lines 32-58).
These take precedence over any `Winerror.h` codes returned from
`SHFileOperation`. -/
inductive ErrorCode where
  | DE_SAMEFILE
  | DE_MANYSRC1DEST
  | DE_DIFFDIR
  | DE_ROOTDIR
  | DE_OPCANCELLED
  | DE_DESTSUBTREE
  | DE_ACCESSDENIEDSRC
  | DE_PATHTOODEEP
  | DE_MANYDEST
  | DE_INVALIDFILES
  | DE_DESTSAMETREE
  | DE_FLDDESTISFILE
  | DE_FILEDESTISFLD
  | DE_FILENAMETOOLONG
  | DE_DEST_IS_CDROM
  | DE_DEST_IS_DVD
  | DE_DEST_IS_CDRECORD
  | DE_FILE_TOO_LARGE
  | DE_SRC_IS_CDROM
  | DE_SRC_IS_DVD
  | DE_SRC_IS_CDRECORD
  | DE_ERROR_MAX
  | UNKNOWN
  | ERRORONDEST
  | DE_ROOTDIR_ERRORONDEST
  deriving DecidableEq, Repr

/-- The `i32` discriminant of each `ErrorCode` variant (`#[repr(i32)]`). -/
def ErrorCode.code : ErrorCode → Int
  | .DE_SAMEFILE => 0x71
  | .DE_MANYSRC1DEST => 0x72
  | .DE_DIFFDIR => 0x73
  | .DE_ROOTDIR => 0x74
  | .DE_OPCANCELLED => 0x75
  | .DE_DESTSUBTREE => 0x76
  | .DE_ACCESSDENIEDSRC => 0x78
  | .DE_PATHTOODEEP => 0x79
  | .DE_MANYDEST => 0x7A
  | .DE_INVALIDFILES => 0x7C
  | .DE_DESTSAMETREE => 0x7D
  | .DE_FLDDESTISFILE => 0x7E
  | .DE_FILEDESTISFLD => 0x80
  | .DE_FILENAMETOOLONG => 0x81
  | .DE_DEST_IS_CDROM => 0x82
  | .DE_DEST_IS_DVD => 0x83
  | .DE_DEST_IS_CDRECORD => 0x84
  | .DE_FILE_TOO_LARGE => 0x85
  | .DE_SRC_IS_CDROM => 0x86
  | .DE_SRC_IS_DVD => 0x87
  | .DE_SRC_IS_CDRECORD => 0x88
  | .DE_ERROR_MAX => 0xB7
  | .UNKNOWN => 0x402
  | .ERRORONDEST => 0x10000
  | .DE_ROOTDIR_ERRORONDEST => 0x10074

/-- `ErrorCode::try_from` as derived by `num_enum::TryFromPrimitive`:
the variant whose discriminant equals the value, if any. -/
def ErrorCode.tryFrom (v : Int) : Option ErrorCode :=
  if v = 0x71 then some .DE_SAMEFILE
  else if v = 0x72 then some .DE_MANYSRC1DEST
  else if v = 0x73 then some .DE_DIFFDIR
  else if v = 0x74 then some .DE_ROOTDIR
  else if v = 0x75 then some .DE_OPCANCELLED
  else if v = 0x76 then some .DE_DESTSUBTREE
  else if v = 0x78 then some .DE_ACCESSDENIEDSRC
  else if v = 0x79 then some .DE_PATHTOODEEP
  else if v = 0x7A then some .DE_MANYDEST
  else if v = 0x7C then some .DE_INVALIDFILES
  else if v = 0x7D then some .DE_DESTSAMETREE
  else if v = 0x7E then some .DE_FLDDESTISFILE
  else if v = 0x80 then some .DE_FILEDESTISFLD
  else if v = 0x81 then some .DE_FILENAMETOOLONG
  else if v = 0x82 then some .DE_DEST_IS_CDROM
  else if v = 0x83 then some .DE_DEST_IS_DVD
  else if v = 0x84 then some .DE_DEST_IS_CDRECORD
  else if v = 0x85 then some .DE_FILE_TOO_LARGE
  else if v = 0x86 then some .DE_SRC_IS_CDROM
  else if v = 0x87 then some .DE_SRC_IS_DVD
  else if v = 0x88 then some .DE_SRC_IS_CDRECORD
  else if v = 0xB7 then some .DE_ERROR_MAX
  else if v = 0x402 then some .UNKNOWN
  else if v = 0x10000 then some .ERRORONDEST
  else if v = 0x10074 then some .DE_ROOTDIR_ERRORONDEST
  else none

/-- `ErrorCode::description` (`shell.rs` lines 62-90). -/
def ErrorCode.description : ErrorCode → String
  | .DE_SAMEFILE => "The source and destination files are the same file."
  | .DE_MANYSRC1DEST => "Multiple file paths were specified in the source buffer, but only one destination file path."
  | .DE_DIFFDIR => "Rename operation was specified but the destination path is a different directory. Use the move operation instead."
  | .DE_ROOTDIR => "The source is a root directory, which cannot be moved or renamed."
  | .DE_OPCANCELLED => "The operation was canceled."
  | .DE_DESTSUBTREE => "The destination is a subtree of the source."
  | .DE_ACCESSDENIEDSRC => "Security settings denied access to the source."
  | .DE_PATHTOODEEP => "The source or destination path exceeded or would exceed MAX_PATH."
  | .DE_MANYDEST => "The operation involved multiple destination paths, which can fail in the case of a move operation."
  | .DE_INVALIDFILES => "The path in the source or destination or both was invalid."
  | .DE_DESTSAMETREE => "The source and destination have the same parent folder."
  | .DE_FLDDESTISFILE => "The destination path is an existing file."
  | .DE_FILEDESTISFLD => "The destination path is an existing folder."
  | .DE_FILENAMETOOLONG => "The name of the file exceeds MAX_PATH."
  | .DE_DEST_IS_CDROM => "The destination is a read-only CD-ROM, possibly unformatted."
  | .DE_DEST_IS_DVD => "The destination is a read-only DVD, possibly unformatted."
  | .DE_DEST_IS_CDRECORD => "The destination is a writable CD-ROM, possibly unformatted."
  | .DE_FILE_TOO_LARGE => "The file involved in the operation is too large for the destination media or file system."
  | .DE_SRC_IS_CDROM => "The source is a read-only CD-ROM, possibly unformatted."
  | .DE_SRC_IS_DVD => "The source is a read-only DVD, possibly unformatted."
  | .DE_SRC_IS_CDRECORD => "The source is a writable CD-ROM, possibly unformatted."
  | .DE_ERROR_MAX => "MAX_PATH was exceeded during the operation."
  | .UNKNOWN => "An unknown error occurred. This is typically due to an invalid path in the source or destination."
  | .ERRORONDEST => "An unspecified error occurred on the destination."
  | .DE_ROOTDIR_ERRORONDEST => "Destination is a root directory and cannot be renamed."

/-- `ErrorCode::error_kind` (`shell.rs` lines 95-123). -/
def ErrorCode.error_kind : ErrorCode → IoErrorKind
  | .DE_SAMEFILE => .invalidInput
  | .DE_MANYSRC1DEST => .invalidInput
  | .DE_DIFFDIR => .invalidInput
  | .DE_ROOTDIR => .invalidInput
  | .DE_OPCANCELLED => .interrupted
  | .DE_DESTSUBTREE => .invalidInput
  | .DE_ACCESSDENIEDSRC => .permissionDenied
  | .DE_PATHTOODEEP => .invalidInput
  | .DE_MANYDEST => .invalidInput
  | .DE_INVALIDFILES => .notFound
  | .DE_DESTSAMETREE => .invalidInput
  | .DE_FLDDESTISFILE => .alreadyExists
  | .DE_FILEDESTISFLD => .alreadyExists
  | .DE_FILENAMETOOLONG => .invalidInput
  | .DE_DEST_IS_CDROM => .permissionDenied
  | .DE_DEST_IS_DVD => .permissionDenied
  | .DE_DEST_IS_CDRECORD => .permissionDenied
  | .DE_FILE_TOO_LARGE => .invalidData
  | .DE_SRC_IS_CDROM => .permissionDenied
  | .DE_SRC_IS_DVD => .permissionDenied
  | .DE_SRC_IS_CDRECORD => .permissionDenied
  | .DE_ERROR_MAX => .other
  | .UNKNOWN => .other
  | .ERRORONDEST => .other
  | .DE_ROOTDIR_ERRORONDEST => .invalidInput

/-! ### Observable platform events -/

/-- The four externally-owned COM handles acquired by the modern engine. -/
inductive Handle where
  | bindCtx
  | trueObj
  | item
  | fileOp
  deriving DecidableEq, Repr

/-- Observable platform events emitted by the engines and the probe. -/
inductive Event where
  | resolveCall
  | attrQuery
  | batchCall
  | discovery
  | acquire (h : Handle)
  | release (h : Handle)
  deriving DecidableEq, Repr

/-! ### Legacy engine (`shell.rs`, `shell::remove_dir_all`) -/

/-- `INVALID_FILE_ATTRIBUTES` (`(DWORD)-1`). -/
def INVALID_FILE_ATTRIBUTES : Nat := 0xffffffff

/-- `FILE_ATTRIBUTE_DIRECTORY`. -/
def FILE_ATTRIBUTE_DIRECTORY : Nat := 0x10

/-- Environment for the legacy engine: the path-resolution oracle, the
`GetFileAttributesW` return value (with the last OS error read when it is
`INVALID_FILE_ATTRIBUTES`), the `SHFileOperationW` return value, and the
`fAnyOperationsAborted` flag after the batch call. -/
structure ShellEnv where
  renv : ResolveEnv
  attributes : Nat
  attrLastOsError : Int
  shResult : Int
  abortedOut : Bool

namespace shell

/-- `shell::remove_dir_all` (`shell.rs` lines 127-175): resolve the path,
append a second nul (multi-path convention), query the file attributes
(failing via the last OS error when unreadable, or with an invalid-data
error when the directory bit is absent), invoke `SHFileOperationW` on the
marker-stripped path, translate a non-zero return through the `ErrorCode`
table (falling back to a raw OS error), and finally check the aborted flag.
The second component is the trace of platform events. -/
def remove_dir_all (env : ShellEnv) (input : List Nat) (fuel : Nat) :
    Option (Except IoError Unit) × List Event :=
  match resolve_absolute_path_utf16 env.renv input fuel with
  | none => (none, [.resolveCall])
  | some (.error e) => (some (.error e), [.resolveCall])
  | some (.ok _path) =>
    if env.attributes = INVALID_FILE_ATTRIBUTES then
      (some (.error (.osError env.attrLastOsError)), [.resolveCall, .attrQuery])
    else if env.attributes &&& FILE_ATTRIBUTE_DIRECTORY = 0 then
      (some (.error (.custom .invalidData "Target is not a directory or directory symlink.")),
        [.resolveCall, .attrQuery])
    else
      if env.shResult ≠ 0 then
        (some (.error (match ErrorCode.tryFrom env.shResult with
          | some code => .custom code.error_kind code.description
          | none => .osError env.shResult)),
          [.resolveCall, .attrQuery, .batchCall])
      else if env.abortedOut then
        (some (.error (.custom .interrupted "Operation aborted before completion.")),
          [.resolveCall, .attrQuery, .batchCall])
      else
        (some (.ok ()), [.resolveCall, .attrQuery, .batchCall])

end shell

/-! ### Modern engine (`property.rs`) -/

/-- `SFGAO_FOLDER` attribute flag. -/
def SFGAO_FOLDER : Nat := 0x20000000

/-- `SFGAO_FILESYSTEM` attribute flag. -/
def SFGAO_FILESYSTEM : Nat := 0x40000000

/-- Environment for the modern engine's worker thread: for each platform
call, its `HRESULT` (negative = failure), whether the out-pointer returning
calls left a null pointer despite success, the resolved item's `SFGAO`
attribute flags (the platform's `IShellItem::GetAttributes` returns `S_OK`
exactly when the requested flags are all present, per its documented
contract quoted in the source comment), and the
`GetAnyOperationsAborted` output flag. -/
structure PropertyEnv where
  coInitResult : Int
  createBindCtxResult : Int
  createBindCtxNull : Bool
  registerResult : Int
  shCreateResult : Int
  shCreateNull : Bool
  itemAttrs : Nat
  coCreateResult : Int
  coCreateNull : Bool
  setFlagsResult : Int
  deleteItemResult : Int
  performResult : Int
  getAbortedResult : Int
  aborted : Bool

/-- Which exit the `thread_work` closure of `property::remove_dir_all`
(`property.rs` lines 364-470) takes: each step is checked in source order
and the first failing check selects the exit.  The `Bool` argument of the
HRESULT-failure exits records whether the corresponding out-pointer was
left null (it determines whether a `ComRef` had been acquired). -/
inductive TWExit where
  | bindCtxErr (null : Bool)
  | bindCtxNull
  | registerErr
  | shCreateErr (null : Bool)
  | shCreateNull
  | notDirectory
  | coCreateErr (null : Bool)
  | coCreateNull
  | setFlagsErr
  | deleteItemErr
  | performErr
  | getAbortedErr
  | abortedErr
  | success
  deriving DecidableEq, Repr

/-- The exit taken by `thread_work` for a given environment: the exact
check chain of `property.rs` lines 364-470, in source order. -/
def twExit (env : PropertyEnv) : TWExit :=
  if env.createBindCtxResult < 0 then .bindCtxErr env.createBindCtxNull
  else if env.createBindCtxNull then .bindCtxNull
  else if env.registerResult < 0 then .registerErr
  else if env.shCreateResult < 0 then .shCreateErr env.shCreateNull
  else if env.shCreateNull then .shCreateNull
  else if env.itemAttrs &&& (SFGAO_FOLDER ||| SFGAO_FILESYSTEM) ≠
      SFGAO_FOLDER ||| SFGAO_FILESYSTEM then .notDirectory
  else if env.coCreateResult < 0 then .coCreateErr env.coCreateNull
  else if env.coCreateNull then .coCreateNull
  else if env.setFlagsResult < 0 then .setFlagsErr
  else if env.deleteItemResult < 0 then .deleteItemErr
  else if env.performResult < 0 then .performErr
  else if env.getAbortedResult < 0 then .getAbortedErr
  else if env.aborted then .abortedErr
  else .success

/-- The value returned by `thread_work` at each exit, exactly the error
constructed in the source at that return point. -/
def twResult (env : PropertyEnv) : TWExit → Except IoError Unit
  | .bindCtxErr _ => .error (hresultError env.createBindCtxResult "`CreateBindCtx`")
  | .bindCtxNull =>
    .error (.custom .other "`CreateBindCtx` succeeded but did not create an `IBindCtx`.")
  | .registerErr => .error (hresultError env.registerResult "`IBindCtx::RegisterObjectParam`")
  | .shCreateErr _ => .error (hresultError env.shCreateResult "`SHCreateItemFromParsingName`")
  | .shCreateNull =>
    .error (.custom .other
      "`SHCreateItemFromParsingName` succeeded but did not create an `IShellItem`.")
  | .notDirectory =>
    .error (.custom .invalidData "Target is not a directory or directory symlink.")
  | .coCreateErr _ => .error (hresultError env.coCreateResult "`IFileOperation` creation")
  | .coCreateNull =>
    .error (.custom .other "`CoCreateInstance` succeded but did not create an `IFileOperation`.")
  | .setFlagsErr => .error (hresultError env.setFlagsResult "`IFileOperation::SetOperationFlags()`")
  | .deleteItemErr => .error (hresultError env.deleteItemResult "`IFileOperation::DeleteItem()`")
  | .performErr => .error (hresultError env.performResult "`IFileOperation::PerformOperations`")
  | .getAbortedErr =>
    .error (hresultError env.getAbortedResult "`IFileOperation::GetAnyOperationsAborted`")
  | .abortedErr => .error (.custom .interrupted "Operation aborted before completion.")
  | .success => .ok ()

/-- The COM handle events on each exit path.  A `ComRef` is acquired for
each non-null pointer taken over (`bind_ctx`, the allocated `true_obj`, the
`item`, the `file_op`) and each is released by Rust drop semantics in
reverse declaration order on scope exit; a `ComRef` still held by the
`ok_or_else` closure of a failed step is dropped while that expression is
evaluated, before the surrounding locals. -/
def twTrace : TWExit → List Event
  | .bindCtxErr null => if null then [] else [.acquire .bindCtx, .release .bindCtx]
  | .bindCtxNull => []
  | .registerErr =>
    [.acquire .bindCtx, .acquire .trueObj, .release .trueObj, .release .bindCtx]
  | .shCreateErr null =>
    if null then
      [.acquire .bindCtx, .acquire .trueObj, .release .trueObj, .release .bindCtx]
    else
      [.acquire .bindCtx, .acquire .trueObj, .acquire .item, .release .item,
        .release .trueObj, .release .bindCtx]
  | .shCreateNull =>
    [.acquire .bindCtx, .acquire .trueObj, .release .trueObj, .release .bindCtx]
  | .notDirectory =>
    [.acquire .bindCtx, .acquire .trueObj, .acquire .item, .release .item,
      .release .trueObj, .release .bindCtx]
  | .coCreateErr null =>
    if null then
      [.acquire .bindCtx, .acquire .trueObj, .acquire .item, .release .item,
        .release .trueObj, .release .bindCtx]
    else
      [.acquire .bindCtx, .acquire .trueObj, .acquire .item, .acquire .fileOp,
        .release .fileOp, .release .item, .release .trueObj, .release .bindCtx]
  | .coCreateNull =>
    [.acquire .bindCtx, .acquire .trueObj, .acquire .item, .release .item,
      .release .trueObj, .release .bindCtx]
  | _ =>
    [.acquire .bindCtx, .acquire .trueObj, .acquire .item, .acquire .fileOp,
      .release .fileOp, .release .item, .release .trueObj, .release .bindCtx]

/-- The `thread_work` closure of `property::remove_dir_all` (`property.rs`
lines 364-470): the result and COM handle event trace of the exit selected
by the step checks. -/
def thread_work (env : PropertyEnv) : Except IoError Unit × List Event :=
  (twResult env (twExit env), twTrace (twExit env))

/-! ### Capability probe (`property.rs` lines 328-357) -/

/-- Environment for the probe's discovery logic: whether
`GetModuleHandleW("shell32.dll")` returns a non-null module, and whether
`GetProcAddress` then finds `SHCreateItemFromParsingName`. -/
structure ProbeEnv where
  shell32Found : Bool
  procFound : Bool

/-- The probe's cached state: `none` when the `Once` has not yet completed,
`some f` once it has, where `f` records whether the function pointer was
resolved (`SH_CREATE_ITEM_FROM_PARSING_NAME_OPT` is `Some`). -/
def ProbeState := Option Bool

/-- One call through `SH_CREATE_ITEM_FROM_PARSING_NAME_INIT.call_once` plus
the subsequent read of the cached pointer: if initialization already
completed, the discovery logic does not run again and the cached flag is
returned; otherwise discovery runs once (a null shell32 module leaves the
pointer unset, i.e. capability false). -/
def probeStep (st : ProbeState) (env : ProbeEnv) : ProbeState × Bool × List Event :=
  match st with
  | some f => (some f, f, [])
  | none =>
    let f := env.shell32Found && env.procFound
    (some f, f, [.discovery])

/-- The body of `property::remove_dir_all` (`property.rs` lines 339-485)
given the probe step's outcome `pr` and the path resolution's outcome
`res`: return `Ok(None)` (unsupported) when the probe reports the function
pointer absent; otherwise a resolution failure propagates, and the worker
thread runs (`CoInitializeEx`, `thread_work`, `CoUninitialize`), its
outcome mapped to `Ok(Some(()))` or the error.  `none` means the
resolution loop did not finish within the fuel. -/
def property_core (pr : ProbeState × Bool × List Event)
    (res : Option (Except IoError (List Nat))) (env : PropertyEnv) :
    ProbeState × Option (Except IoError (Option Unit)) × List Event :=
  if pr.2.1 = false then (pr.1, some (.ok none), pr.2.2)
  else
    match res with
    | none => (pr.1, none, pr.2.2 ++ [.resolveCall])
    | some (.error e) => (pr.1, some (.error e), pr.2.2 ++ [.resolveCall])
    | some (.ok _path) =>
      if env.coInitResult < 0 then
        (pr.1, some (.error (hresultError env.coInitResult "`CoInitializeEx`")),
          pr.2.2 ++ [.resolveCall])
      else
        let w := thread_work env
        match w.1 with
        | .error e => (pr.1, some (.error e), pr.2.2 ++ [.resolveCall] ++ w.2)
        | .ok _ => (pr.1, some (.ok (some ())), pr.2.2 ++ [.resolveCall] ++ w.2)

namespace property

/-- `property::remove_dir_all` (`property.rs` lines 339-485): run the
probe, resolve the path, and run the engine body on those outcomes. -/
def remove_dir_all (st : ProbeState) (pe : ProbeEnv) (renv : ResolveEnv)
    (env : PropertyEnv) (input : List Nat) (fuel : Nat) :
    ProbeState × Option (Except IoError (Option Unit)) × List Event :=
  property_core (probeStep st pe) (resolve_absolute_path_utf16 renv input fuel) env

end property

/-! ### Dispatcher (`mod.rs`, `remove_dir_all`) -/

/-- The full platform environment seen by one call to the public entry
point. -/
structure DispatchEnv where
  probe : ProbeEnv
  renv : ResolveEnv
  penv : PropertyEnv
  senv : ShellEnv

/-- The public `remove_dir_all` (`mod.rs` lines 127-138): when the
`property_system_api` feature is compiled in, call the modern engine; its
`Ok(Some(()))` becomes success and its error propagates via `?`; only
`Ok(None)` (probe unsupported) falls through to the legacy engine, which is
also called directly when the feature is not compiled in. -/
def remove_dir_all (compiled : Bool) (st : ProbeState) (env : DispatchEnv)
    (input : List Nat) (fuel : Nat) :
    ProbeState × Option (Except IoError Unit) × List Event :=
  if compiled then
    let p := property.remove_dir_all st env.probe env.renv env.penv input fuel
    match p.2.1 with
    | none => (p.1, none, p.2.2)
    | some (.error e) => (p.1, some (.error e), p.2.2)
    | some (.ok (some _)) => (p.1, some (.ok ()), p.2.2)
    | some (.ok none) =>
      let sh := shell.remove_dir_all env.senv input fuel
      (p.1, sh.1, p.2.2 ++ sh.2)
  else
    let sh := shell.remove_dir_all env.senv input fuel
    (st, sh.1, sh.2)

/-! ### The minimal `Unknown` COM object (`property.rs` lines 226-289) -/

/-- `E_NOINTERFACE`. -/
def E_NOINTERFACE : Int := -2147467262

/-- The IID of `IUnknown` (`{00000000-0000-0000-C000-000000000046}`),
represented as the concatenated 16-byte GUID value; only identity
comparison matters here. -/
def IID_IUNKNOWN : Nat := 0xC000000000000046

/-- The heap state of one `Unknown` object: its reference count
(`Cell<ULONG>`). -/
structure UnknownObj where
  ref_count : Nat
  deriving DecidableEq, Repr

/-- `u32` modulus for the wrapping arithmetic of `ULONG`. -/
def U32_MOD : Nat := 2 ^ 32

/-- `Unknown::allocate`: a fresh object with reference count 1. -/
def Unknown_allocate : UnknownObj := ⟨1⟩

/-- `Unknown::add_ref`: increment the count (release-mode `u32` wrapping
semantics) and return the new value. -/
def Unknown_add_ref (o : UnknownObj) : UnknownObj × Nat :=
  let n := (o.ref_count + 1) % U32_MOD
  (⟨n⟩, n)

/-- `Unknown::release`: decrement the count (release-mode `u32` wrapping
semantics) and return the new value; when the new count is zero the box is
reconstructed and dropped, deallocating the object (`none`). -/
def Unknown_release (o : UnknownObj) : Option UnknownObj × Nat :=
  let n := (o.ref_count + (U32_MOD - 1)) % U32_MOD
  if n = 0 then (none, 0) else (some ⟨n⟩, n)

/-- `Unknown::query_interface`: `ok` (the object itself is stored through
`ppv_object` with `S_OK`) exactly for the `IUnknown` IID, and
`E_NOINTERFACE` for every other IID. -/
def Unknown_query_interface (riid : Nat) : Except Int Unit :=
  if riid = IID_IUNKNOWN then .ok () else .error E_NOINTERFACE

/-! ### Auxiliary definitions for the stated properties -/

/-- A sequence of calls through the probe's `Once` guard, starting from a
given cached state; returns the final state, the flag observed by each
call, and the concatenated event traces. -/
def runProbeCalls (st : ProbeState) : List ProbeEnv → ProbeState × List Bool × List Event
  | [] => (st, [], [])
  | e :: es =>
    let s := probeStep st e
    let r := runProbeCalls s.1 es
    (r.1, s.2.1 :: r.2.1, s.2.2 ++ r.2.2)

/-- The handles acquired in a trace, in order. -/
def acquiresOf (evs : List Event) : List Handle :=
  evs.filterMap fun e => match e with | .acquire h => some h | _ => none

/-- The handles released in a trace, in order. -/
def releasesOf (evs : List Event) : List Handle :=
  evs.filterMap fun e => match e with | .release h => some h | _ => none

/-- A concrete resolution oracle: the zero-capacity probe call reports a
required size of 5, the retry (capacity 5) reports a written length of 3,
so the loop succeeds at the second call. -/
def renvOk : ResolveEnv := ⟨fun _ i => if i = 0 then 5 else 3, fun _ _ => [65, 66, 67], 2⟩

/-- A concrete legacy-engine environment in which every platform call
succeeds on a plain directory. -/
def senvOk : ShellEnv := ⟨renvOk, 0x10, 0, 0, false⟩

/-- A concrete legacy-engine environment in which `GetFileAttributesW`
fails with `ERROR_ACCESS_DENIED` (5) as the last OS error. -/
def senvAttrDenied : ShellEnv := ⟨renvOk, INVALID_FILE_ATTRIBUTES, 5, 0, false⟩

/-- A concrete legacy-engine environment in which `GetFileAttributesW`
fails with `ERROR_PATH_NOT_FOUND` (3) as the last OS error. -/
def senvAttrNF : ShellEnv := ⟨renvOk, INVALID_FILE_ATTRIBUTES, 3, 0, false⟩

/-- A concrete modern-engine environment in which every platform call
succeeds on a filesystem folder. -/
def penvOk : PropertyEnv :=
  ⟨0, 0, false, 0, 0, false, SFGAO_FOLDER ||| SFGAO_FILESYSTEM, 0, false, 0, 0, 0, 0, false⟩

/-- A concrete dispatcher environment in which the probe finds the modern
entry point and both engines would succeed. -/
def denvOk : DispatchEnv := ⟨⟨true, true⟩, renvOk, penvOk, senvOk⟩

/-! ## Supporting lemmas -/

theorem toU32_lt (r : Int) : toU32 r < 2 ^ 32 := by
  unfold toU32
  have h1 : r % (2 : Int) ^ 32 < (2 : Int) ^ 32 :=
    Int.emod_lt_of_pos r (by norm_num)
  omega

theorem land_low16 (x : Nat) : x &&& 0xffff = x % 2 ^ 16 := by
  have h := Nat.and_pow_two_sub_one_eq_mod x 16
  norm_num at h
  exact h

theorem land_high16_iff {x : Nat} (hx : x < 2 ^ 32) :
    x &&& 0xffff0000 = 0x80070000 ↔ x / 2 ^ 16 = 0x8007 := by
  have hdiv : x / 2 ^ 16 = x >>> 16 := (Nat.shiftRight_eq_div_pow x 16).symm
  rw [hdiv]
  constructor
  · intro h
    apply Nat.eq_of_testBit_eq
    intro i
    rcases Nat.lt_or_ge i 16 with hi | hi
    · have h1 : (x &&& 0xffff0000).testBit (16 + i) =
          (0x80070000 : Nat).testBit (16 + i) := by rw [h]
      rw [Nat.testBit_and] at h1
      have hm : (0xffff0000 : Nat).testBit (16 + i) = true := by
        interval_cases i <;> decide
      have hr : (0x80070000 : Nat).testBit (16 + i) = (0x8007 : Nat).testBit i := by
        interval_cases i <;> decide
      rw [hm, Bool.and_true] at h1
      rw [Nat.testBit_shiftRight, Nat.add_comm 16 i] at *
      rw [h1, hr]
    · have h2 : x.testBit (16 + i) = false :=
        Nat.testBit_lt_two_pow
          (lt_of_lt_of_le hx (Nat.pow_le_pow_right (by norm_num) (by omega)))
      have h3 : (0x8007 : Nat).testBit i = false :=
        Nat.testBit_lt_two_pow
          (lt_of_lt_of_le (show (0x8007 : Nat) < 2 ^ 16 by norm_num)
            (Nat.pow_le_pow_right (by norm_num) hi))
      rw [Nat.testBit_shiftRight, h2, h3]
  · intro h
    apply Nat.eq_of_testBit_eq
    intro j
    rw [Nat.testBit_and]
    rcases Nat.lt_or_ge j 16 with hj | hj
    · have hm : (0xffff0000 : Nat).testBit j = false := by interval_cases j <;> decide
      have hr : (0x80070000 : Nat).testBit j = false := by interval_cases j <;> decide
      rw [hm, hr, Bool.and_false]
    · rcases Nat.lt_or_ge j 32 with hj2 | hj2
      · obtain ⟨i, rfl⟩ : ∃ i, j = 16 + i := ⟨j - 16, by omega⟩
        have hi16 : i < 16 := by omega
        have hxb : x.testBit (16 + i) = (0x8007 : Nat).testBit i := by
          rw [← Nat.testBit_shiftRight, h]
        rw [hxb]
        interval_cases i <;> decide
      · have h2 : x.testBit j = false :=
          Nat.testBit_lt_two_pow
            (lt_of_lt_of_le hx (Nat.pow_le_pow_right (by norm_num) hj2))
        have hr : (0x80070000 : Nat).testBit j = false :=
          Nat.testBit_lt_two_pow
            (lt_of_lt_of_le (by norm_num) (Nat.pow_le_pow_right (by norm_num) hj2))
        rw [h2, hr, Bool.false_and]

/-! ## Claim theorems -/

/-- C5: for every status value the modern engine checks, a nonnegative
value is success (returned unchanged); a negative value whose upper 16 bits
(as an unsigned 32-bit integer) equal 0x8007 becomes an OS error built from
the value's low 16 bits; any other negative value becomes an `Other`-kind
error whose message is built from the failing step's name and the raw
status value. -/
theorem hresult_translation (r : Int) (context : String) :
    (0 ≤ r → hresult_to_result r context = .ok r) ∧
    (r < 0 → toU32 r / 2 ^ 16 = 0x8007 →
      hresult_to_result r context = .error (.osError (Int.ofNat (toU32 r % 2 ^ 16)))) ∧
    (r < 0 → toU32 r / 2 ^ 16 ≠ 0x8007 →
      hresult_to_result r context =
        .error (.custom .other (context ++ " failed with HRESULT " ++ toString r ++ "."))) := by
  refine ⟨fun h => by simp [hresult_to_result, h], fun h hhi => ?_, fun h hhi => ?_⟩
  · rw [hresult_to_result, if_neg (by omega), hresultError,
      if_pos ((land_high16_iff (toU32_lt r)).mpr hhi), land_low16]
  · rw [hresult_to_result, if_neg (by omega), hresultError,
      if_neg (fun hc => hhi ((land_high16_iff (toU32_lt r)).mp hc))]

/-- Witness for C5 at concrete inputs: `0x80070002` (`-2147024894`) becomes
the OS error 2, and `E_NOINTERFACE` (`0x80004002`) becomes an `Other`-kind
message naming the failing step. -/
theorem hresult_translation_witness :
    hresult_to_result (-2147024894) "`CoInitializeEx`" = .error (.osError 2) ∧
    hresult_to_result (-2147467262) "`CoInitializeEx`" =
      .error (.custom .other "`CoInitializeEx` failed with HRESULT -2147467262.") := by
  constructor
  · have h := (hresult_translation (-2147024894) "`CoInitializeEx`").2.1
      (by norm_num) (by decide)
    have h2 : Int.ofNat (toU32 (-2147024894) % 2 ^ 16) = 2 := by decide
    rw [h, h2]
  · exact (hresult_translation (-2147467262) "`CoInitializeEx`").2.2
      (by norm_num) (by decide)

/-- C10: the minimal sentinel identity object maintains its manual
reference-count protocol: allocation yields count 1; `AddRef` increments
the count and returns the new value; `Release` decrements the count,
returns the new value, and deallocates the object exactly when the count
reaches zero; `QueryInterface` yields the object only for the `IUnknown`
identifier and returns `E_NOINTERFACE` for every other identifier. -/
theorem unknown_refcount_protocol :
    Unknown_allocate.ref_count = 1 ∧
    (∀ o : UnknownObj, o.ref_count + 1 < U32_MOD →
      Unknown_add_ref o = (⟨o.ref_count + 1⟩, o.ref_count + 1)) ∧
    (∀ o : UnknownObj, 1 ≤ o.ref_count → o.ref_count < U32_MOD →
      Unknown_release o =
        (if o.ref_count - 1 = 0 then none else some ⟨o.ref_count - 1⟩, o.ref_count - 1)) ∧
    (∀ riid : Nat, Unknown_query_interface riid = .ok () ↔ riid = IID_IUNKNOWN) ∧
    (∀ riid : Nat, riid ≠ IID_IUNKNOWN →
      Unknown_query_interface riid = .error E_NOINTERFACE) := by
  refine ⟨rfl, fun o h => ?_, fun o h1 h2 => ?_, fun riid => ?_, fun riid h => ?_⟩
  · simp only [Unknown_add_ref]
    rw [Nat.mod_eq_of_lt h]
  · have hn : (o.ref_count + (U32_MOD - 1)) % U32_MOD = o.ref_count - 1 := by
      have hm : (0 : Nat) < U32_MOD := by norm_num [U32_MOD]
      have : o.ref_count + (U32_MOD - 1) = (o.ref_count - 1) + 1 * U32_MOD := by omega
      rw [this, Nat.add_mul_mod_self_right, Nat.mod_eq_of_lt (by omega)]
    simp only [Unknown_release, hn]
    rcases eq_or_ne (o.ref_count - 1) 0 with h0 | h0 <;> simp [h0]
  · constructor
    · intro h
      by_contra hne
      simp [Unknown_query_interface, hne] at h
    · intro h
      simp [Unknown_query_interface, h]
  · simp [Unknown_query_interface, h]

/-- Witness for C10: an object with count 2 increments to 3, decrements
back to 1 without deallocation, an object with count 1 deallocates on
release, and a non-`IUnknown` IID is refused. -/
theorem unknown_refcount_protocol_witness :
    Unknown_add_ref ⟨2⟩ = (⟨3⟩, 3) ∧
    Unknown_release ⟨2⟩ = (some ⟨1⟩, 1) ∧
    Unknown_release ⟨1⟩ = (none, 0) ∧
    Unknown_query_interface 7 = .error E_NOINTERFACE := by
  refine ⟨?_, ?_, ?_, ?_⟩
  · exact unknown_refcount_protocol.2.1 ⟨2⟩ (by norm_num [U32_MOD])
  · have h := unknown_refcount_protocol.2.2.1 ⟨2⟩ (by norm_num) (by norm_num [U32_MOD])
    simpa using h
  · have h := unknown_refcount_protocol.2.2.1 ⟨1⟩ (by norm_num) (by norm_num [U32_MOD])
    simpa using h
  · exact unknown_refcount_protocol.2.2.2.2 7 (by norm_num [IID_IUNKNOWN])

/-- C7: the resolver prepends the four-code-unit extended-length marker
exactly when the input does not already begin with it, nul-terminates the
encoded string, discovers the buffer size by looping — starting from a
zero-capacity call, failing via the last OS error on a zero return,
growing the buffer to exactly the reported size and retrying while the
report does not fit, and succeeding as soon as it does; the companion
strip operation removes the first four code units exactly when they equal
the marker and returns the input unchanged otherwise. -/
theorem path_resolution_behavior :
    (∀ input : List Nat, input.take 4 ≠ EXTENDED_PATH_MARKER →
      encode_nul_terminated input = EXTENDED_PATH_MARKER ++ input ++ [0]) ∧
    (∀ input : List Nat, input.take 4 = EXTENDED_PATH_MARKER →
      encode_nul_terminated input = input ++ [0]) ∧
    (∀ input : List Nat, (encode_nul_terminated input).getLast? = some 0) ∧
    (∀ env input fuel,
      resolve_absolute_path_utf16 env input fuel =
        resolveLoop env (encode_nul_terminated input) 0 0 fuel) ∧
    (∀ env p i capacity fuel, env.ret p i = 0 →
      resolveLoop env p i capacity (fuel + 1) = some (.error (.osError env.lastOsError))) ∧
    (∀ env p i capacity fuel, env.ret p i ≠ 0 → env.ret p i < capacity →
      resolveLoop env p i capacity (fuel + 1) = some (.ok (env.out p i ++ [0]))) ∧
    (∀ env p i capacity fuel, env.ret p i ≠ 0 → ¬env.ret p i < capacity →
      resolveLoop env p i capacity (fuel + 1) = resolveLoop env p (i + 1) (env.ret p i) fuel) ∧
    (∀ rest : List Nat, strip_extended_marker (EXTENDED_PATH_MARKER ++ rest) = rest) ∧
    (∀ path : List Nat, path.take 4 ≠ EXTENDED_PATH_MARKER →
      strip_extended_marker path = path) := by
  refine ⟨fun input h => by simp [encode_nul_terminated, h],
    fun input h => by simp [encode_nul_terminated, h],
    fun input => ?_, fun env input fuel => rfl,
    fun env p i capacity fuel h => by simp [resolveLoop, h],
    fun env p i capacity fuel h hlt => by simp [resolveLoop, h, hlt],
    fun env p i capacity fuel h hge => by simp [resolveLoop, h, hge],
    fun rest => ?_, fun path h => ?_⟩
  · unfold encode_nul_terminated
    split
    · exact List.getLast?_concat _
    · exact List.getLast?_concat _
  · have hlen : 4 ≤ (EXTENDED_PATH_MARKER ++ rest).length := by
      simp [EXTENDED_PATH_MARKER]
    have htake : (EXTENDED_PATH_MARKER ++ rest).take 4 = EXTENDED_PATH_MARKER := by
      have h4 : (4 : Nat) = EXTENDED_PATH_MARKER.length := rfl
      rw [h4, List.take_left]
    rw [strip_extended_marker, if_pos ⟨hlen, htake⟩]
    have h4 : (4 : Nat) = EXTENDED_PATH_MARKER.length := rfl
    rw [h4, List.drop_left]
  · unfold strip_extended_marker
    rw [if_neg]
    intro hc
    exact h hc.2

/-- Witness for C7 at concrete inputs: a path without the marker gets it
prepended, one with it is kept, the loop grows from the zero-capacity call
to the reported size of 5 and then succeeds, and strip removes exactly a
leading marker. -/
theorem path_resolution_behavior_witness :
    encode_nul_terminated [67] = EXTENDED_PATH_MARKER ++ [67] ++ [0] ∧
    encode_nul_terminated [92, 92, 63, 92, 67] = [92, 92, 63, 92, 67] ++ [0] ∧
    resolveLoop renvOk [1] 0 0 2 = resolveLoop renvOk [1] 1 5 1 ∧
    resolveLoop renvOk [1] 1 5 1 = some (.ok [65, 66, 67, 0]) ∧
    strip_extended_marker [92, 92, 63, 92, 67] = [67] ∧
    strip_extended_marker [67] = [67] := by
  refine ⟨path_resolution_behavior.1 [67] (by decide),
    path_resolution_behavior.2.1 [92, 92, 63, 92, 67] (by decide),
    ?_, ?_,
    path_resolution_behavior.2.2.2.2.2.2.2.1 [67],
    path_resolution_behavior.2.2.2.2.2.2.2.2 [67] (by decide)⟩
  · have h := path_resolution_behavior.2.2.2.2.2.2.1 renvOk [1] 0 0 1
      (by decide) (by decide)
    simpa [renvOk] using h
  · have h := path_resolution_behavior.2.2.2.2.2.1 renvOk [1] 1 5 0
      (by decide) (by decide)
    simpa [renvOk] using h

/-- C4: for every non-zero return of the legacy batch operation, the
translation first looks the value up in the fixed `ErrorCode` table,
producing that entry's kind and description when found, and otherwise
builds an error from the value as a raw OS error code; for a zero return,
the aborted flag is then checked and, if set, the call fails with an
`Interrupted`-kind error, otherwise it succeeds. -/
theorem shell_result_translation (env : ShellEnv) (input : List Nat) (fuel : Nat)
    (p : List Nat)
    (hres : resolve_absolute_path_utf16 env.renv input fuel = some (.ok p))
    (hattr : env.attributes ≠ INVALID_FILE_ATTRIBUTES)
    (hdir : env.attributes &&& FILE_ATTRIBUTE_DIRECTORY ≠ 0) :
    (∀ code, ErrorCode.tryFrom env.shResult = some code →
      (shell.remove_dir_all env input fuel).1 =
        some (.error (.custom code.error_kind code.description))) ∧
    (ErrorCode.tryFrom env.shResult = none → env.shResult ≠ 0 →
      (shell.remove_dir_all env input fuel).1 = some (.error (.osError env.shResult))) ∧
    (env.shResult = 0 → env.abortedOut = true →
      (shell.remove_dir_all env input fuel).1 =
        some (.error (.custom .interrupted "Operation aborted before completion."))) ∧
    (env.shResult = 0 → env.abortedOut = false →
      (shell.remove_dir_all env input fuel).1 = some (.ok ())) := by
  refine ⟨fun code hc => ?_, fun hc hnz => ?_, fun hz hab => ?_, fun hz hab => ?_⟩
  · have hnz : env.shResult ≠ 0 := by
      intro h0
      rw [h0] at hc
      simp [ErrorCode.tryFrom] at hc
    simp [shell.remove_dir_all, hres, hattr, hdir, hnz, hc]
  · simp [shell.remove_dir_all, hres, hattr, hdir, hnz, hc]
  · simp [shell.remove_dir_all, hres, hattr, hdir, hz, hab]
  · simp [shell.remove_dir_all, hres, hattr, hdir, hz, hab]

/-- Witness for C4: with a successful resolution on a directory, the table
code `0x78` (`DE_ACCESSDENIEDSRC`) takes precedence, `99` falls through to
a raw OS error, and a zero return with the aborted flag set becomes an
`Interrupted`-kind error. -/
theorem shell_result_translation_witness :
    (shell.remove_dir_all { senvOk with shResult := 0x78 } [65] 10).1 =
      some (.error (.custom .permissionDenied
        "Security settings denied access to the source.")) ∧
    (shell.remove_dir_all { senvOk with shResult := 99 } [65] 10).1 =
      some (.error (.osError 99)) ∧
    (shell.remove_dir_all { senvOk with abortedOut := true } [65] 10).1 =
      some (.error (.custom .interrupted "Operation aborted before completion.")) ∧
    (shell.remove_dir_all senvOk [65] 10).1 = some (.ok ()) := by
  refine ⟨?_, ?_, ?_, ?_⟩
  · have h := (shell_result_translation { senvOk with shResult := 0x78 } [65] 10
      [65, 66, 67, 0] (by decide) (by decide) (by decide)).1 .DE_ACCESSDENIEDSRC (by decide)
    simpa using h
  · exact (shell_result_translation { senvOk with shResult := 99 } [65] 10
      [65, 66, 67, 0] (by decide) (by decide) (by decide)).2.1 (by decide) (by decide)
  · exact (shell_result_translation { senvOk with abortedOut := true } [65] 10
      [65, 66, 67, 0] (by decide) (by decide) (by decide)).2.2.1 (by decide) (by decide)
  · exact (shell_result_translation senvOk [65] 10
      [65, 66, 67, 0] (by decide) (by decide) (by decide)).2.2.2 (by decide) (by decide)

/-- C2: a resolved target that exists but is not a directory or directory
symbolic link makes both engines fail with the invalid-data
("Target is not a directory or directory symlink.") error: the modern
engine requires the folder and filesystem attribute bits simultaneously
set after item resolution, the legacy engine requires the directory
attribute bit; folder-symbolic-link attribute values (the folder/directory
bit together with the link/reparse bit) pass both checks. -/
theorem engines_reject_non_directory :
    (∀ env : PropertyEnv,
      env.itemAttrs &&& (SFGAO_FOLDER ||| SFGAO_FILESYSTEM) ≠
        SFGAO_FOLDER ||| SFGAO_FILESYSTEM →
      0 ≤ env.createBindCtxResult → env.createBindCtxNull = false →
      0 ≤ env.registerResult → 0 ≤ env.shCreateResult → env.shCreateNull = false →
      (thread_work env).1 =
        .error (.custom .invalidData "Target is not a directory or directory symlink.")) ∧
    (∀ (env : ShellEnv) (input : List Nat) (fuel : Nat) (p : List Nat),
      resolve_absolute_path_utf16 env.renv input fuel = some (.ok p) →
      env.attributes ≠ INVALID_FILE_ATTRIBUTES →
      env.attributes &&& FILE_ATTRIBUTE_DIRECTORY = 0 →
      (shell.remove_dir_all env input fuel).1 =
        some (.error (.custom .invalidData "Target is not a directory or directory symlink."))) ∧
    (IoError.custom .invalidData "Target is not a directory or directory symlink.").kind =
      .invalidData ∧
    (thread_work
      { penvOk with itemAttrs := SFGAO_FOLDER ||| SFGAO_FILESYSTEM ||| 0x10000 }).1 =
      .ok () ∧
    (shell.remove_dir_all { senvOk with attributes := 0x10 ||| 0x400 } [65] 10).1 =
      some (.ok ()) := by
  refine ⟨fun env hattr h1 h2 h3 h4 h5 => ?_, fun env input fuel p hres hinv hdir => ?_,
    rfl, by decide, by decide⟩
  · have n1 : ¬env.createBindCtxResult < 0 := not_lt.mpr h1
    have n3 : ¬env.registerResult < 0 := not_lt.mpr h3
    have n4 : ¬env.shCreateResult < 0 := not_lt.mpr h4
    have hexit : twExit env = .notDirectory := by
      simp [twExit, h2, h5, n1, n3, n4, hattr]
    simp [thread_work, hexit, twResult]
  · simp [shell.remove_dir_all, hres, hinv, hdir]

/-- Witness for C2: a plain file's attributes (filesystem bit without the
folder bit for the modern engine; no directory bit for the legacy engine)
are rejected with the invalid-data error by both engines. -/
theorem engines_reject_non_directory_witness :
    (thread_work { penvOk with itemAttrs := SFGAO_FILESYSTEM }).1 =
      .error (.custom .invalidData "Target is not a directory or directory symlink.") ∧
    (shell.remove_dir_all { senvOk with attributes := 0x20 } [65] 10).1 =
      some (.error (.custom .invalidData "Target is not a directory or directory symlink.")) := by
  constructor
  · exact engines_reject_non_directory.1 { penvOk with itemAttrs := SFGAO_FILESYSTEM }
      (by decide) (by decide) (by decide) (by decide) (by decide) (by decide)
  · exact engines_reject_non_directory.2.1 { senvOk with attributes := 0x20 } [65] 10
      [65, 66, 67, 0] (by decide) (by decide) (by decide)

/-- The COM handle event traces of the modern engine contain no batch
call, no resolution call, and no discovery event. -/
theorem twTrace_handle_events (o : TWExit) :
    Event.batchCall ∉ twTrace o ∧ Event.resolveCall ∉ twTrace o ∧
    Event.discovery ∉ twTrace o := by
  cases o <;> first
    | exact ⟨by decide, by decide, by decide⟩
    | (rename_i b; cases b <;> exact ⟨by decide, by decide, by decide⟩)

/-- On every exit of the modern engine's worker, the released handles are
exactly the acquired handles in reverse order, and no handle is acquired
twice. -/
theorem twTrace_release_reverse (o : TWExit) :
    releasesOf (twTrace o) = (acquiresOf (twTrace o)).reverse ∧
    (acquiresOf (twTrace o)).Nodup := by
  cases o <;> first
    | exact ⟨by decide, by decide⟩
    | (rename_i b; cases b <;> exact ⟨by decide, by decide⟩)

/-- On every exit of the modern engine's worker, each handle is released
as many times as it is acquired. -/
theorem twTrace_counts (o : TWExit) (hd : Handle) :
    (twTrace o).count (Event.release hd) = (twTrace o).count (Event.acquire hd) := by
  cases o <;> first
    | (cases hd <;> decide)
    | (rename_i b; cases b <;> cases hd <;> decide)

/-- The probe emits either no event or a single discovery event. -/
theorem probeStep_trace_cases (st : ProbeState) (pe : ProbeEnv) :
    (probeStep st pe).2.2 = [] ∨ (probeStep st pe).2.2 = [Event.discovery] := by
  cases st <;> simp [probeStep]

/-- Once the probe's state is cached, any further call sequence runs no
discovery, leaves the state unchanged, and reports the cached flag to
every caller. -/
theorem runProbeCalls_cached (f : Bool) (es : List ProbeEnv) :
    runProbeCalls (some f) es = (some f, es.map fun _ => f, []) := by
  induction es with
  | nil => rfl
  | cons e es ih => simp [runProbeCalls, probeStep, ih]

/-- `property::remove_dir_all` unfolds to the engine body on the probe and
resolution outcomes. -/
theorem property_def (st : ProbeState) (pe : ProbeEnv) (renv : ResolveEnv)
    (env : PropertyEnv) (input : List Nat) (fuel : Nat) :
    property.remove_dir_all st pe renv env input fuel =
      property_core (probeStep st pe) (resolve_absolute_path_utf16 renv input fuel) env :=
  rfl

/-- When the probe reports unsupported, the engine body returns the
unsupported outcome immediately with only the probe's events. -/
theorem property_core_unsupported (pr : ProbeState × Bool × List Event)
    (res : Option (Except IoError (List Nat))) (env : PropertyEnv)
    (h : pr.2.1 = false) :
    property_core pr res env = (pr.1, some (.ok none), pr.2.2) := by
  simp [property_core, h]

/-- When the probe reports supported, the engine body's trace is the
probe's events, then the resolution call, then (when the worker ran) the
worker's handle events. -/
theorem property_core_trace_true (pr : ProbeState × Bool × List Event)
    (res : Option (Except IoError (List Nat))) (env : PropertyEnv)
    (h : ¬pr.2.1 = false) :
    (property_core pr res env).2.2 = pr.2.2 ++ [Event.resolveCall] ∨
    (property_core pr res env).2.2 =
      pr.2.2 ++ [Event.resolveCall] ++ twTrace (twExit env) := by
  rcases res with _ | r
  · simp [property_core, h]
  · rcases r with e | p
    · simp [property_core, h]
    · by_cases hco : env.coInitResult < 0
      · simp [property_core, h, hco]
      · rcases hw : twResult env (twExit env) with e | u <;>
          simp [property_core, h, hco, thread_work, hw]

/-- When the probe reports supported, the engine body never returns the
unsupported outcome. -/
theorem property_core_result_true (pr : ProbeState × Bool × List Event)
    (res : Option (Except IoError (List Nat))) (env : PropertyEnv)
    (h : ¬pr.2.1 = false) :
    (property_core pr res env).2.1 = none ∨
    (∃ e, (property_core pr res env).2.1 = some (.error e)) ∨
    (property_core pr res env).2.1 = some (.ok (some ())) := by
  rcases res with _ | r
  · simp [property_core, h]
  · rcases r with e | p
    · simp [property_core, h]
    · by_cases hco : env.coInitResult < 0
      · simp [property_core, h, hco]
      · rcases hw : twResult env (twExit env) with e | u <;>
          simp [property_core, h, hco, thread_work, hw]

/-- The modern engine never emits a batch call event, and the unsupported
outcome occurs only when the probe reported unsupported. -/
theorem property_no_batch (st : ProbeState) (pe : ProbeEnv) (renv : ResolveEnv)
    (env : PropertyEnv) (input : List Nat) (fuel : Nat) :
    Event.batchCall ∉ (property.remove_dir_all st pe renv env input fuel).2.2 ∧
    ((property.remove_dir_all st pe renv env input fuel).2.1 = some (.ok none) →
      (probeStep st pe).2.1 = false) := by
  rw [property_def]
  have hpr := probeStep_trace_cases st pe
  have htw := (twTrace_handle_events (twExit env)).1
  by_cases hsup : (probeStep st pe).2.1 = false
  · rw [property_core_unsupported _ _ _ hsup]
    rcases hpr with h | h <;> simp [h, hsup]
  · constructor
    · rcases property_core_trace_true (probeStep st pe)
          (resolve_absolute_path_utf16 renv input fuel) env hsup with h | h <;>
        rw [h] <;> rcases hpr with h2 | h2 <;> simp [h2, htw]
    · intro hnone
      rcases property_core_result_true (probeStep st pe)
          (resolve_absolute_path_utf16 renv input fuel) env hsup with h | ⟨e, h⟩ | h <;>
        rw [h] at hnone <;> simp at hnone

/-- The legacy engine's event trace is one of three prefixes of
resolution, attribute query, batch call. -/
theorem shell_trace_cases (env : ShellEnv) (input : List Nat) (fuel : Nat) :
    (shell.remove_dir_all env input fuel).2 = [.resolveCall] ∨
    (shell.remove_dir_all env input fuel).2 = [.resolveCall, .attrQuery] ∨
    (shell.remove_dir_all env input fuel).2 = [.resolveCall, .attrQuery, .batchCall] := by
  unfold shell.remove_dir_all
  rcases hres : resolve_absolute_path_utf16 env.renv input fuel with _ | r
  · simp
  · rcases r with e | p
    · simp
    · split_ifs <;> simp

/-- The legacy engine performs exactly one resolution call. -/
theorem shell_resolve_count (env : ShellEnv) (input : List Nat) (fuel : Nat) :
    ((shell.remove_dir_all env input fuel).2.count Event.resolveCall) = 1 := by
  rcases shell_trace_cases env input fuel with h | h | h <;> rw [h] <;> decide

/-- When the probe reports supported, the modern engine performs exactly
one resolution call; when unsupported, none. -/
theorem property_resolve_count (st : ProbeState) (pe : ProbeEnv) (renv : ResolveEnv)
    (env : PropertyEnv) (input : List Nat) (fuel : Nat) :
    ((property.remove_dir_all st pe renv env input fuel).2.2.count Event.resolveCall) =
      if (probeStep st pe).2.1 = false then 0 else 1 := by
  rw [property_def]
  have hpr := probeStep_trace_cases st pe
  have hprc : ((probeStep st pe).2.2.count Event.resolveCall) = 0 := by
    rcases hpr with h | h <;> rw [h] <;> decide
  have htwc : ((twTrace (twExit env)).count Event.resolveCall) = 0 :=
    List.count_eq_zero.mpr (twTrace_handle_events (twExit env)).2.1
  by_cases hsup : (probeStep st pe).2.1 = false
  · rw [property_core_unsupported _ _ _ hsup, if_pos hsup]
    exact hprc
  · rw [if_neg hsup]
    rcases property_core_trace_true (probeStep st pe)
        (resolve_absolute_path_utf16 renv input fuel) env hsup with h | h <;>
      rw [h] <;> simp [List.count_append, hprc, htwc]

/-- C9: in every execution of the modern engine's worker, each
externally-owned COM handle it acquires (bind context, sentinel identity
object, shell item, file-operation object) is released exactly once before
the worker returns, in reverse order of acquisition, on every exit path:
the released handles of the trace are exactly the reversal of the acquired
handles, no handle is acquired twice, and per-handle acquire and release
counts agree. -/
theorem modern_handles_released (env : PropertyEnv) :
    releasesOf (thread_work env).2 = (acquiresOf (thread_work env).2).reverse ∧
    (acquiresOf (thread_work env).2).Nodup ∧
    (∀ hd : Handle, ((thread_work env).2.count (Event.release hd)) =
      ((thread_work env).2.count (Event.acquire hd))) :=
  ⟨(twTrace_release_reverse (twExit env)).1,
   (twTrace_release_reverse (twExit env)).2,
   fun hd => twTrace_counts (twExit env) hd⟩

/-- C8: the capability probe's discovery logic runs at most once across
any sequence of calls; once initialized the cached state never changes and
every later call observes the same flag; a missing shell component makes
the capability false and the modern engine then returns the unsupported
outcome, not an error. -/
theorem probe_memoized :
    (∀ (st : ProbeState) (es : List ProbeEnv),
      ((runProbeCalls st es).2.2.count Event.discovery) ≤ 1) ∧
    (∀ (f : Bool) (es : List ProbeEnv),
      (runProbeCalls (some f) es).1 = some f ∧
      (runProbeCalls (some f) es).2.1 = es.map (fun _ => f) ∧
      (runProbeCalls (some f) es).2.2 = []) ∧
    (∀ (st : ProbeState) (e : ProbeEnv), (probeStep st e).1 = some (probeStep st e).2.1) ∧
    (∀ e : ProbeEnv, e.shell32Found = false → (probeStep none e).2.1 = false) ∧
    (∀ (pe : ProbeEnv) (renv : ResolveEnv) (penv : PropertyEnv) (input : List Nat)
      (fuel : Nat), pe.shell32Found = false →
      (property.remove_dir_all none pe renv penv input fuel).2.1 = some (.ok none)) := by
  refine ⟨fun st es => ?_, fun f es => by simp [runProbeCalls_cached f es],
    fun st e => by cases st <;> simp [probeStep],
    fun e h => by simp [probeStep, h],
    fun pe renv penv input fuel h => ?_⟩
  · cases st with
    | some f => rw [runProbeCalls_cached]; simp
    | none =>
      cases es with
      | nil => decide
      | cons e es => simp [runProbeCalls, probeStep, runProbeCalls_cached]
  · have hsup : (probeStep none pe).2.1 = false := by simp [probeStep, h]
    rw [property_def, property_core_unsupported _ _ _ hsup]

/-- Witness for C8: a fresh state with a missing shell component caches
`false`, runs discovery exactly once over three calls, and the modern
engine reports unsupported. -/
theorem probe_memoized_witness :
    ((runProbeCalls none [⟨false, true⟩, ⟨true, true⟩, ⟨true, true⟩]).2.2.count
      Event.discovery) ≤ 1 ∧
    (runProbeCalls (some false) [⟨true, true⟩]).2.1 = [false] ∧
    (probeStep none ⟨false, true⟩).2.1 = false ∧
    (property.remove_dir_all none ⟨false, true⟩ renvOk penvOk [65] 10).2.1 =
      some (.ok none) := by
  refine ⟨probe_memoized.1 none [⟨false, true⟩, ⟨true, true⟩, ⟨true, true⟩], ?_,
    probe_memoized.2.2.2.1 ⟨false, true⟩ rfl,
    probe_memoized.2.2.2.2 ⟨false, true⟩ renvOk penvOk [65] 10 rfl⟩
  · have h := (probe_memoized.2.1 false [⟨true, true⟩]).2.1
    simpa using h

/-- C6 counterexample: when `GetFileAttributesW` fails with
`ERROR_ACCESS_DENIED` (5) as the last OS error, the legacy engine fails
with a permission-denied error, not a not-found error, refuting the
claim that an unreadable-attributes failure is always a not-found
error. -/
theorem shell_attr_failure_not_notfound :
    (shell.remove_dir_all senvAttrDenied [65] 10).1 = some (.error (.osError 5)) ∧
    (IoError.osError 5).kind = .permissionDenied ∧
    (IoError.osError 5).kind ≠ .notFound := by decide

/-- C6 amended: for every path whose file attributes cannot be read, the
legacy engine fails before the batch request with the error built from the
thread's last OS error (a not-found error exactly when that code indicates
absence), and the batch operation is not invoked. -/
theorem shell_attr_failure_uses_last_os_error (env : ShellEnv) (input : List Nat)
    (fuel : Nat) (p : List Nat)
    (hres : resolve_absolute_path_utf16 env.renv input fuel = some (.ok p))
    (hattr : env.attributes = INVALID_FILE_ATTRIBUTES) :
    (shell.remove_dir_all env input fuel).1 =
      some (.error (.osError env.attrLastOsError)) ∧
    Event.batchCall ∉ (shell.remove_dir_all env input fuel).2 := by
  unfold shell.remove_dir_all
  rw [hres]
  simp [hattr]

/-- Witness for C6's amended claim: attributes unreadable with last OS
error 3 (path not found) gives the not-found-kind OS error 3 and no batch
call. -/
theorem shell_attr_failure_uses_last_os_error_witness :
    (shell.remove_dir_all senvAttrNF [65] 10).1 = some (.error (.osError 3)) ∧
    Event.batchCall ∉ (shell.remove_dir_all senvAttrNF [65] 10).2 :=
  shell_attr_failure_uses_last_os_error senvAttrNF [65] 10 [65, 66, 67, 0]
    (by decide) (by decide)

/-- When the modern engine is compiled in and does not report unsupported,
the dispatcher's result is the modern engine's outcome (with the payload
dropped) and its events are exactly the modern engine's events. -/
theorem dispatch_events_modern (st : ProbeState) (env : DispatchEnv)
    (input : List Nat) (fuel : Nat)
    (h : ¬(property.remove_dir_all st env.probe env.renv env.penv input fuel).2.1 =
      some (.ok none)) :
    (remove_dir_all true st env input fuel).2.1 =
      Option.map (fun r => r.map fun _ => ())
        (property.remove_dir_all st env.probe env.renv env.penv input fuel).2.1 ∧
    (remove_dir_all true st env input fuel).2.2 =
      (property.remove_dir_all st env.probe env.renv env.penv input fuel).2.2 := by
  rcases hp : (property.remove_dir_all st env.probe env.renv env.penv input fuel).2.1
    with _ | r
  · constructor <;> simp [remove_dir_all, hp]
  · rcases r with e | o
    · constructor <;> simp [remove_dir_all, hp, Except.map]
    · rcases o with _ | u
      · exact absurd hp h
      · constructor <;> simp [remove_dir_all, hp, Except.map]

/-- C1: when the modern engine is compiled in and the capability probe
reports supported, the public entry point returns the modern engine's
outcome directly — success or error, with exactly the modern engine's
events and so no legacy invocation — and the legacy batch mechanism is
ever invoked only when the engine is not compiled in or the probe reports
unsupported. -/
theorem dispatch_modern_no_fallback (st : ProbeState) (env : DispatchEnv)
    (input : List Nat) (fuel : Nat)
    (hsup : (probeStep st env.probe).2.1 = true) :
    ((remove_dir_all true st env input fuel).2.1 =
      Option.map (fun r => r.map fun _ => ())
        (property.remove_dir_all st env.probe env.renv env.penv input fuel).2.1 ∧
     (remove_dir_all true st env input fuel).2.2 =
      (property.remove_dir_all st env.probe env.renv env.penv input fuel).2.2 ∧
     Event.batchCall ∉ (remove_dir_all true st env input fuel).2.2) ∧
    (∀ (compiled : Bool) (st2 : ProbeState),
      Event.batchCall ∈ (remove_dir_all compiled st2 env input fuel).2.2 →
      compiled = false ∨ (probeStep st2 env.probe).2.1 = false) := by
  have hsup2 : ¬(probeStep st env.probe).2.1 = false := by simp [hsup]
  have hnn : ¬(property.remove_dir_all st env.probe env.renv env.penv input fuel).2.1 =
      some (.ok none) :=
    fun hc => hsup2 ((property_no_batch st env.probe env.renv env.penv input fuel).2 hc)
  have hd := dispatch_events_modern st env input fuel hnn
  refine ⟨⟨hd.1, hd.2, ?_⟩, ?_⟩
  · rw [hd.2]
    exact (property_no_batch st env.probe env.renv env.penv input fuel).1
  · intro compiled st2 hmem
    cases compiled with
    | false => exact Or.inl rfl
    | true =>
      by_cases hs2 : (probeStep st2 env.probe).2.1 = false
      · exact Or.inr hs2
      · exfalso
        have hnn2 : ¬(property.remove_dir_all st2 env.probe env.renv env.penv
            input fuel).2.1 = some (.ok none) :=
          fun hc => hs2 ((property_no_batch st2 env.probe env.renv env.penv input fuel).2 hc)
        rw [(dispatch_events_modern st2 env input fuel hnn2).2] at hmem
        exact (property_no_batch st2 env.probe env.renv env.penv input fuel).1 hmem

/-- Witness for C1: with the probe cached as supported, the dispatcher's
events are exactly the modern engine's events. -/
theorem dispatch_modern_no_fallback_witness :
    (remove_dir_all true (some true) denvOk [65] 10).2.2 =
      (property.remove_dir_all (some true) denvOk.probe denvOk.renv denvOk.penv
        [65] 10).2.2 ∧
    Event.batchCall ∉ (remove_dir_all true (some true) denvOk [65] 10).2.2 :=
  ⟨(dispatch_modern_no_fallback (some true) denvOk [65] 10 (by decide)).1.2.1,
   (dispatch_modern_no_fallback (some true) denvOk [65] 10 (by decide)).1.2.2⟩

/-- C3: every call to the public entry point performs exactly one path
resolution, whatever the feature flag, cached probe state, and platform
environment: the path is never re-resolved per engine. -/
theorem resolve_called_exactly_once (compiled : Bool) (st : ProbeState)
    (env : DispatchEnv) (input : List Nat) (fuel : Nat) :
    ((remove_dir_all compiled st env input fuel).2.2.count Event.resolveCall) = 1 := by
  cases compiled with
  | false => simp [remove_dir_all, shell_resolve_count env.senv input fuel]
  | true =>
    by_cases hs : (probeStep st env.probe).2.1 = false
    · have hu := property_core_unsupported (probeStep st env.probe)
        (resolve_absolute_path_utf16 env.renv input fuel) env.penv hs
      have h1 : (property.remove_dir_all st env.probe env.renv env.penv
          input fuel).2.1 = some (.ok none) := by
        rw [property_def, hu]
      have h2 : (property.remove_dir_all st env.probe env.renv env.penv
          input fuel).2.2 = (probeStep st env.probe).2.2 := by
        rw [property_def, hu]
      have hprc : ((probeStep st env.probe).2.2.count Event.resolveCall) = 0 := by
        rcases probeStep_trace_cases st env.probe with h | h <;> rw [h] <;> decide
      simp [remove_dir_all, h1, h2, List.count_append, hprc,
        shell_resolve_count env.senv input fuel]
    · have hnn : ¬(property.remove_dir_all st env.probe env.renv env.penv
          input fuel).2.1 = some (.ok none) :=
        fun hc => hs ((property_no_batch st env.probe env.renv env.penv input fuel).2 hc)
      rw [(dispatch_events_modern st env input fuel hnn).2,
        property_resolve_count st env.probe env.renv env.penv input fuel, if_neg hs]

end RemoveDirAll
